import Mathlib

/-!
Verification of the analytics core of the Smart-AI-MirrorForHealth app.

The definitions below are a shallow embedding of the TypeScript sources:
  * `HealthDataService`   (src/services/WellnessAdviceService.ts, second class in the file)
  * `HealthCheckService`  (src/unnamed/part_007)
  * `EmotionAnalysisService.getMoodStabilityScore` (src/unnamed/part_006)

JavaScript numbers are modelled exactly: all arithmetic the code performs is
rational, except Pearson correlation which takes a square root and is modelled
over the reals.  Division by zero follows the Lean convention `x / 0 = 0`, which
agrees with the code because every place the code can divide by zero the
numerator is provably zero as well (the JS result is then `NaN`, which the code
coerces to `0` with `|| 0`).  `Math.round` is `⌊x + 1/2⌋`, which agrees with JS
half-up rounding for all reals.  A `Date` is its epoch-milliseconds value.
-/

namespace MirrorHealth

/-- JS `Math.round` on an exact rational. -/
def jsRound (q : ℚ) : ℤ := ⌊q + 1/2⌋

/-- JS `Math.round` on a real (used after the square root in correlations). -/
noncomputable def jsRoundR (x : ℝ) : ℤ := ⌊x + 1/2⌋

/-- `Math.round(x * 100) / 100`, the two-decimal rounding used in trend fields. -/
def round2 (q : ℚ) : ℚ := (jsRound (q * 100) : ℚ) / 100

/-! ## Data model of `HealthDataService` -/

/-- The `HealthMetric['type']` string union. -/
inductive MetricType
  | mood | pain | energy | sleep | steps | heart_rate | blood_pressure
  | weight | temperature | glucose
deriving DecidableEq, Repr

/-- `HealthMetric['value']`: `number | { systolic; diastolic } | string`.
A string value is carried together with its `parseFloat` result
(`none` when the parse is `NaN`). -/
inductive MetricValue
  | num (q : ℚ)
  | bp (systolic diastolic : ℚ)
  | str (parsed : Option ℚ)
deriving DecidableEq

/-- A stored health metric sample (fields the analytics reads). -/
structure HealthMetric where
  id : String
  type : MetricType
  value : MetricValue
  timestamp : ℚ
deriving DecidableEq

/-- `HealthDataService.normalizeValue`: numbers pass through, a blood-pressure
pair projects to its systolic entry, strings parse to a number or 0. -/
def normalizeValue : MetricValue → ℚ
  | .num q => q
  | .bp systolic _ => systolic
  | .str (some q) => q
  | .str none => 0

/-- Trend direction values of `HealthTrend['trend']`. -/
inductive TrendDir
  | improving | stable | declining | insufficient_data
deriving DecidableEq, Repr

/-- `HealthTrend['period']`. -/
inductive Period
  | h24 | d7 | d30 | d90
deriving DecidableEq, Repr

/-- `HealthDataService.periodToDays`. -/
def periodToDays : Period → ℕ
  | .h24 => 1
  | .d7 => 7
  | .d30 => 30
  | .d90 => 90

/-- The `HealthTrend` record returned by `getHealthTrend` (the `change` and
`confidence` fields store the `Math.round`ed values, as in the source). -/
structure HealthTrend where
  metricType : MetricType
  period : Period
  trend : TrendDir
  change : ℤ
  confidence : ℤ
  dataPoints : ℕ
  lastValue : ℚ
  averageValue : ℚ
  minValue : ℚ
  maxValue : ℚ
  recommendations : List String

/-! ## Linear regression (`HealthDataService.calculateLinearRegression`) -/

/-- `x.reduce((sum, xi, i) => sum + xi * y[i], 0)`: the dot product of two
equal-length sample arrays. -/
def dotSum (x y : List ℚ) : ℚ := (List.zipWith (· * ·) x y).sum

/-- The regression slope `(n·ΣXY − ΣX·ΣY) / (n·ΣXX − (ΣX)²)`.
When the denominator is zero the numerator is zero too (Cauchy–Schwarz),
and the JS `slope || 0` yields 0, matching Lean's `0 / 0 = 0`. -/
def regressionSlope (x y : List ℚ) : ℚ :=
  ((x.length : ℚ) * dotSum x y - x.sum * y.sum) /
    ((x.length : ℚ) * dotSum x x - x.sum ^ 2)

/-- The Pearson correlation
`(n·ΣXY − ΣX·ΣY) / √((n·ΣXX − (ΣX)²)·(n·ΣYY − (ΣY)²))`.
As for the slope, a zero denominator forces a zero numerator and the JS
`correlation || 0` yields 0, matching `x / 0 = 0` over ℝ. -/
noncomputable def regressionCorrelation (x y : List ℚ) : ℝ :=
  (((x.length : ℚ) * dotSum x y - x.sum * y.sum : ℚ) : ℝ) /
    Real.sqrt ((((x.length : ℚ) * dotSum x x - x.sum ^ 2) *
      ((x.length : ℚ) * dotSum y y - y.sum ^ 2) : ℚ) : ℝ)

/-- The common denominator `n·ΣXX − (ΣX)²` of slope and correlation (the
scaled variance of the x samples). -/
def Dq (x : List ℚ) : ℚ := (x.length : ℚ) * dotSum x x - x.sum ^ 2

/-- `HealthDataService.isPositiveImprovement`: per-metric polarity table. -/
def isPositiveImprovement (type : MetricType) (isIncreasing : Bool) : Bool :=
  if type ∈ [MetricType.mood, .energy, .sleep, .steps] then isIncreasing
  else if type ∈ [MetricType.pain] then !isIncreasing
  else isIncreasing

/-- `HealthDataService.getTrendRecommendations`: static lookup keyed by
metric type and direction, with a generic fallback. -/
def getTrendRecommendations (type : MetricType) (trend : TrendDir) (_change : ℚ) :
    List String :=
  match type, trend with
  | .mood, .improving => ["Continue current positive activities", "Maintain social connections"]
  | .mood, .stable => ["Try new mood-boosting activities", "Consider mindfulness practices"]
  | .mood, .declining => ["Reach out for support", "Consider professional help if needed"]
  | .pain, .improving => ["Continue current pain management", "Maintain gentle exercise"]
  | .pain, .stable => ["Monitor pain levels", "Discuss with healthcare provider"]
  | .pain, .declining => ["Review pain management plan", "Consider medical consultation"]
  | .sleep, .improving => ["Maintain good sleep hygiene", "Keep consistent bedtime"]
  | .sleep, .stable => ["Optimize sleep environment", "Try relaxation techniques"]
  | .sleep, .declining => ["Improve sleep routine", "Limit screen time before bed"]
  | .energy, .improving => ["Keep up current lifestyle", "Maintain exercise routine"]
  | .energy, .stable => ["Consider gentle exercise", "Review nutrition"]
  | .energy, .declining => ["Evaluate sleep and stress", "Consider medical check-up"]
  | _, _ => ["Monitor closely and consult healthcare provider"]

/-- `Math.min(...values)` over a non-empty array (`0` for the empty array,
which the caller never produces). -/
def listMin : List ℚ → ℚ
  | [] => 0
  | v :: vs => vs.foldl min v

/-- `Math.max(...values)` over a non-empty array. -/
def listMax : List ℚ → ℚ
  | [] => 0
  | v :: vs => vs.foldl max v

/-! ## The metric store (`saveHealthMetric` / `getHealthMetrics`) -/

/-- `HealthDataService.saveHealthMetric`: push the sample and keep only the
last 10000 entries (`metrics.slice(-10000)`). -/
def saveHealthMetric (store : List HealthMetric) (m : HealthMetric) :
    List HealthMetric :=
  let metrics := store ++ [m]
  metrics.drop (metrics.length - 10000)

/-- Appending a batch of samples one by one. -/
def appendAll (store : List HealthMetric) (ms : List HealthMetric) :
    List HealthMetric :=
  ms.foldl saveHealthMetric store

/-- The comparator `(a, b) => b.timestamp - a.timestamp`: newest first. -/
def newestFirst (a b : HealthMetric) : Prop := b.timestamp ≤ a.timestamp

instance : DecidableRel newestFirst :=
  fun a b => inferInstanceAs (Decidable (b.timestamp ≤ a.timestamp))

instance : IsTotal HealthMetric newestFirst :=
  ⟨fun a b => le_total b.timestamp a.timestamp⟩

instance : IsTrans HealthMetric newestFirst :=
  ⟨fun _ _ _ h1 h2 => le_trans h2 h1⟩

/-- `HealthDataService.getHealthMetrics` over a snapshot of the store:
filter to the lookback window (`timestamp > cutoff`), optionally filter by
type, sort newest first (JS `sort` is stable; modelled by a stable insertion
sort), and optionally truncate to `limit` entries. -/
def getHealthMetrics (store : List HealthMetric) (type : Option MetricType)
    (cutoff : ℚ) (limit : Option ℕ) : List HealthMetric :=
  let f1 := store.filter fun m => cutoff < m.timestamp
  let f2 := match type with
    | some t => f1.filter fun m => m.type = t
    | none => f1
  let sorted := List.insertionSort newestFirst f2
  match limit with
  | some l => sorted.take l
  | none => sorted

/-! ## Trend analysis (`HealthDataService.getHealthTrend`) -/

/-- The body of `getHealthTrend` applied to the window of samples it fetched
(`metrics` is the newest-first list `getHealthMetrics` returns). -/
noncomputable def getHealthTrend (type : MetricType) (period : Period)
    (metrics : List HealthMetric) : HealthTrend :=
  if metrics.length < 3 then
    { metricType := type, period := period, trend := .insufficient_data,
      change := 0, confidence := 0, dataPoints := metrics.length,
      lastValue := 0, averageValue := 0, minValue := 0, maxValue := 0,
      recommendations := ["Need more data points to analyze trends"] }
  else
    let values := metrics.map fun m => normalizeValue m.value
    let timestamps := metrics.map fun m => m.timestamp
    let slope := regressionSlope timestamps values
    let correlation := regressionCorrelation timestamps values
    let lastValue := values.headI
    let averageValue := values.sum / (values.length : ℚ)
    let minValue := listMin values
    let maxValue := listMax values
    let trend : TrendDir :=
      if |slope| < 0.05 then .stable
      else if isPositiveImprovement type (decide (0 < slope)) then .improving
      else .declining
    let change := (lastValue - averageValue) / averageValue * 100
    let confidence : ℝ := min (|correlation| * 100) 95
    { metricType := type, period := period, trend := trend,
      change := jsRound change, confidence := jsRoundR confidence,
      dataPoints := values.length,
      lastValue := round2 lastValue, averageValue := round2 averageValue,
      minValue := round2 minValue, maxValue := round2 maxValue,
      recommendations := getTrendRecommendations type trend change }

/-! ## Goals (`calculateGoalProgress` / `updateGoalProgress`) -/

/-- The mutable fields of a `HealthGoal` the progress tick touches. -/
structure HealthGoal where
  id : String
  type : MetricType
  targetValue : ℚ
  currentValue : ℚ
  isActive : Bool
  progress : ℤ
deriving DecidableEq

/-- `HealthDataService.calculateGoalProgress`: progress of `currentValue`
relative to the distance from the goal's stored `currentValue` to the target,
clamped to [0, 100] and rounded. -/
def calculateGoalProgress (goal : HealthGoal) (currentValue : ℚ) : ℤ :=
  let distance := |goal.targetValue - goal.currentValue|
  let progress := |goal.targetValue - currentValue|
  if distance = 0 then 100
  else jsRound (max 0 (min 100 ((distance - progress) / distance * 100)))

/-- One iteration of the `updateGoalProgress` loop for a goal whose most
recent metric normalizes to `currentValue`: the goal's `currentValue` and
`progress` are overwritten. -/
def updateGoalStep (goal : HealthGoal) (currentValue : ℚ) : HealthGoal :=
  { goal with
      currentValue := currentValue
      progress := calculateGoalProgress goal currentValue }

/-! ## Insights (`HealthDataService.generateInsights`) -/

/-- `HealthInsight['type']`. -/
inductive InsightKind
  | positive | neutral | concern | achievement
deriving DecidableEq, Repr

/-- `HealthInsight['priority']`. -/
inductive InsightPriority
  | low | medium | high
deriving DecidableEq, Repr

/-- The fields of a generated `HealthInsight` the generator decides. -/
structure HealthInsight where
  type : InsightKind
  priority : InsightPriority
  actionable : Bool
  dismissed : Bool
deriving DecidableEq

/-- The decision core of `generateInsights`: given the 7-day trend it fetched,
either produce an insight or nothing.  The early return on an
`insufficient_data` trend and the firing condition
`Math.abs(trend.change) > 20 && trend.confidence > 70` are as in the source. -/
def generateInsightFromTrend (t : HealthTrend) : Option HealthInsight :=
  if t.trend = .insufficient_data then none
  else if 20 < |t.change| ∧ 70 < t.confidence then
    some { type := if t.trend = .improving then .positive
                   else if t.trend = .declining then .concern
                   else .neutral,
           priority := if 30 < |t.change| then .high else .medium,
           actionable := t.trend = .declining,
           dismissed := false }
  else none

/-! ## Correlations (`HealthDataService.calculateMetricCorrelation`) -/

/-- The stored `HealthCorrelation` record. -/
structure HealthCorrelation where
  primaryMetric : MetricType
  secondaryMetric : MetricType
  correlation : ℚ
  confidence : ℝ
  description : String
  timeframe : String

/-- `HealthDataService.getCorrelationDescription`. -/
noncomputable def getCorrelationDescription (strength direction : String) : String :=
  "There is a " ++ strength ++ " " ++ direction ++ " correlation between the metrics."

/-- Matching step of `calculateMetricCorrelation`: for each primary sample,
`find` the first secondary sample whose timestamp is within 24 hours, and pair
the normalized values. -/
def matchPairs (ps ss : List HealthMetric) : List (ℚ × ℚ) :=
  ps.filterMap fun p =>
    (ss.find? fun s => |p.timestamp - s.timestamp| < 24 * 60 * 60 * 1000).map
      fun s => (normalizeValue p.value, normalizeValue s.value)

/-- `HealthDataService.calculateMetricCorrelation` applied to the two 30-day
windows it fetched: `null` when either window has fewer than 5 samples, when
fewer than 5 pairs match, or when the correlation is below 0.3 in absolute
value; otherwise the correlation record. -/
noncomputable def calculateMetricCorrelation (primary secondary : MetricType)
    (ps ss : List HealthMetric) : Option HealthCorrelation :=
  if ps.length < 5 ∨ ss.length < 5 then none
  else
    let matched := matchPairs ps ss
    if matched.length < 5 then none
    else
      let correlation := regressionCorrelation (matched.map Prod.fst)
        (matched.map Prod.snd)
      if |correlation| < 0.3 then none
      else
        let strength := if 0.7 < |correlation| then "strong"
                        else if 0.5 < |correlation| then "moderate" else "weak"
        let direction := if 0 < correlation then "positive" else "negative"
        some { primaryMetric := primary, secondaryMetric := secondary,
               correlation := (jsRoundR (correlation * 100) : ℚ) / 100,
               confidence := min (|correlation| * 100) 95,
               description := getCorrelationDescription strength direction,
               timeframe := "30 days" }

/-! ## Check-in flagging (`HealthCheckService`, src/unnamed/part_007) -/

/-- `HealthResponse['value']`: `string | number | boolean`. -/
inductive ResponseValue
  | num (q : ℚ)
  | boolean (b : Bool)
  | text (s : String)
deriving DecidableEq

/-- A check-in response (the fields `shouldFlagCheckIn` reads). -/
structure HealthResponse where
  questionId : String
  value : ResponseValue
deriving DecidableEq

/-- `responses.find(r => r.questionId === qid)` followed by the
`typeof r.value === 'number' && p(r.value)` test of `shouldFlagCheckIn`. -/
def numResponseTest (r : Option HealthResponse) (p : ℚ → Bool) : Bool :=
  match r with
  | some ⟨_, .num q⟩ => p q
  | _ => false

/-- `HealthCheckService.shouldFlagCheckIn`: the early-return chain of the four
flag rules, written as a boolean disjunction. -/
def shouldFlagCheckIn (responses : List HealthResponse) (overallScore : ℚ) : Bool :=
  decide (overallScore ≤ 3)
  || numResponseTest (responses.find? fun r => r.questionId == "pain_level")
       (fun q => 8 ≤ q)
  || numResponseTest (responses.find? fun r => r.questionId == "mood_rating")
       (fun q => q ≤ 2)
  || numResponseTest (responses.find? fun r => r.questionId == "emergency_severity")
       (fun q => 7 ≤ q)

/-! ## Vital signs (`HealthCheckService.checkCriticalVitals` and the status
helpers) -/

/-- Blood-pressure reading. -/
structure BloodPressure where
  systolic : ℚ
  diastolic : ℚ
deriving DecidableEq

/-- Heart-rate reading. -/
structure HeartRate where
  bpm : ℚ
deriving DecidableEq

/-- Temperature unit. -/
inductive TempUnit
  | F | C
deriving DecidableEq

/-- Temperature reading. -/
structure Temperature where
  value : ℚ
  unit : TempUnit
deriving DecidableEq

/-- Oxygen-saturation reading. -/
structure OxygenSaturation where
  percentage : ℚ
deriving DecidableEq

/-- The optional fields of `VitalSigns` that `checkCriticalVitals` inspects. -/
structure VitalSigns where
  bloodPressure : Option BloodPressure := none
  heartRate : Option HeartRate := none
  temperature : Option Temperature := none
  oxygenSaturation : Option OxygenSaturation := none
deriving DecidableEq

/-- `unit === 'C' ? (value * 9/5) + 32 : value`. -/
def toFahrenheit (value : ℚ) (unit : TempUnit) : ℚ :=
  if unit = .C then value * 9 / 5 + 32 else value

/-- Blood-pressure block of `checkCriticalVitals`. -/
def bpAlerts : Option BloodPressure → List String
  | some bp =>
    if 180 < bp.systolic ∨ 120 < bp.diastolic then
      ["Critically high blood pressure detected"]
    else if bp.systolic < 90 ∨ bp.diastolic < 60 then
      ["Low blood pressure detected"]
    else []
  | none => []

/-- Heart-rate block of `checkCriticalVitals`. -/
def hrAlerts : Option HeartRate → List String
  | some hr =>
    if 120 < hr.bpm then ["Elevated heart rate detected"]
    else if hr.bpm < 50 then ["Low heart rate detected"]
    else []
  | none => []

/-- Temperature block of `checkCriticalVitals` (Celsius converts first). -/
def tempAlerts : Option Temperature → List String
  | some t =>
    if 102 < toFahrenheit t.value t.unit then ["High fever detected"]
    else if toFahrenheit t.value t.unit < 95 then ["Low body temperature detected"]
    else []
  | none => []

/-- Oxygen-saturation block of `checkCriticalVitals`. -/
def o2Alerts : Option OxygenSaturation → List String
  | some o =>
    if o.percentage < 90 then ["Low oxygen saturation detected"]
    else []
  | none => []

/-- `HealthCheckService.checkCriticalVitals`: the list of alert messages the
routine accumulates (each is sent as one emergency alert), in source order. -/
def checkCriticalVitals (v : VitalSigns) : List String :=
  bpAlerts v.bloodPressure ++ hrAlerts v.heartRate ++
    tempAlerts v.temperature ++ o2Alerts v.oxygenSaturation

/-- Status values of the metric status helpers. -/
inductive VitalStatus
  | normal | warning | critical
deriving DecidableEq, Repr

/-- `HealthCheckService.getHeartRateStatus`. -/
def getHeartRateStatus (bpm : ℚ) : VitalStatus :=
  if bpm < 60 ∨ 100 < bpm then .warning
  else if bpm < 40 ∨ 120 < bpm then .critical
  else .normal

/-- `HealthCheckService.getBloodPressureStatus`. -/
def getBloodPressureStatus (systolic diastolic : ℚ) : VitalStatus :=
  if 140 < systolic ∨ 90 < diastolic then .warning
  else if 180 < systolic ∨ 110 < diastolic then .critical
  else if systolic < 90 ∨ diastolic < 60 then .warning
  else .normal

/-- `HealthCheckService.getTemperatureStatus` (`fahrenheit` is the converted
reading). -/
def getTemperatureStatus (temp : ℚ) (unit : TempUnit) : VitalStatus :=
  if 100.4 < toFahrenheit temp unit then .warning
  else if 103 < toFahrenheit temp unit then .critical
  else if toFahrenheit temp unit < 96 then .warning
  else .normal

/-! ## Mood stability (`EmotionAnalysisService.getMoodStabilityScore`,
src/unnamed/part_006) -/

/-- The seven emotion labels of the classifier. -/
inductive Emotion
  | angry | disgusted | fearful | happy | neutral | sad | surprised
deriving DecidableEq, Repr

/-- A stored emotion history entry (the fields the stability score reads). -/
structure EmotionEntry where
  emotion : Emotion
  timestamp : ℚ
deriving DecidableEq

/-- The `moodValues` ordinal table (`moodValues[entry.emotion] || 3`; the
seven classifier labels are all present, so the fallback never fires). -/
def moodValue : Emotion → ℚ
  | .happy => 5
  | .neutral => 3
  | .surprised => 4
  | .sad => 1
  | .angry => 1
  | .fearful => 2
  | .disgusted => 2

/-- The window filter of `getMoodStabilityScore`. -/
def recentEmotions (history : List EmotionEntry) (cutoff : ℚ) :
    List EmotionEntry :=
  history.filter fun e => cutoff < e.timestamp

/-- Population standard deviation of a list of mapped mood scores, exactly as
the source computes it (mean, then mean squared deviation, then `Math.sqrt`). -/
noncomputable def stddevOf (scores : List ℚ) : ℝ :=
  Real.sqrt
    (((scores.map fun s => (s - scores.sum / (scores.length : ℚ)) ^ 2).sum /
      (scores.length : ℚ) : ℚ) : ℝ)

/-- `EmotionAnalysisService.getMoodStabilityScore` over a snapshot of the
emotion history: 1 with fewer than 2 samples in the window, otherwise
`Math.max(0, Math.min(1, 1 - stddev / 2))`. -/
noncomputable def getMoodStabilityScore (history : List EmotionEntry)
    (cutoff : ℚ) : ℝ :=
  let recentHistory := recentEmotions history cutoff
  if recentHistory.length < 2 then 1
  else
    let scores := recentHistory.map fun e => moodValue e.emotion
    let stabilityScore := 1 - stddevOf scores / 2
    max 0 (min 1 stabilityScore)

/-- The stability formula as the specification words it: `1 − min(1, stddev/2)`,
clamped to [0, 1].  Stated separately to compare against the code's clamping. -/
noncomputable def specStabilityFormula (sd : ℝ) : ℝ :=
  max 0 (min 1 (1 - min 1 (sd / 2)))

/-! # Theorems -/

/-- Claim C10: in each of the three vital-status helpers the condition guarding
the `critical` branch implies the earlier `warning` condition, so the
`critical` branch is unreachable and no input ever yields the critical
status. -/
theorem c10_status_never_critical :
    (∀ bpm : ℚ, getHeartRateStatus bpm ≠ .critical)
    ∧ (∀ systolic diastolic : ℚ,
        getBloodPressureStatus systolic diastolic ≠ .critical)
    ∧ (∀ (temp : ℚ) (unit : TempUnit),
        getTemperatureStatus temp unit ≠ .critical) := by
  refine ⟨fun bpm => ?_, fun systolic diastolic => ?_, fun temp unit => ?_⟩
  · unfold getHeartRateStatus
    split_ifs with h1 h2
    · simp
    · push_neg at h1
      rcases h2 with h | h <;> [linarith [h1.1]; linarith [h1.2]]
    · simp
  · unfold getBloodPressureStatus
    split_ifs with h1 h2 h3
    · simp
    · push_neg at h1
      rcases h2 with h | h <;> [linarith [h1.1]; linarith [h1.2]]
    · simp
    · simp
  · unfold getTemperatureStatus
    split_ifs with h1 h2 h3
    · simp
    · push_neg at h1
      linarith
    · simp
    · simp

/-- Claim C4: `checkCriticalVitals` produces an alert exactly when one of the
fixed thresholds is crossed (systolic above 180 or diastolic above 120,
systolic below 90 or diastolic below 60, heart rate above 120 or below 50,
temperature above 102 °F or below 95 °F after Celsius conversion, oxygen
saturation below 90), and the vitals containing only a 130 bpm heart rate
produce exactly one alert. -/
theorem c4_critical_vitals :
    (∀ v : VitalSigns,
      checkCriticalVitals v ≠ [] ↔
        (∃ bp, v.bloodPressure = some bp ∧
          (180 < bp.systolic ∨ 120 < bp.diastolic
            ∨ bp.systolic < 90 ∨ bp.diastolic < 60))
        ∨ (∃ hr, v.heartRate = some hr ∧ (120 < hr.bpm ∨ hr.bpm < 50))
        ∨ (∃ t, v.temperature = some t ∧
            (102 < toFahrenheit t.value t.unit ∨ toFahrenheit t.value t.unit < 95))
        ∨ (∃ o, v.oxygenSaturation = some o ∧ o.percentage < 90))
    ∧ checkCriticalVitals { heartRate := some ⟨130⟩ }
        = ["Elevated heart rate detected"] := by
  refine ⟨fun v => ?_, by decide⟩
  have hbp : ∀ ob, bpAlerts ob ≠ [] ↔
      ∃ bp, ob = some bp ∧
        (180 < bp.systolic ∨ 120 < bp.diastolic
          ∨ bp.systolic < 90 ∨ bp.diastolic < 60) := by
    intro ob
    cases ob with
    | none => simp [bpAlerts]
    | some bp =>
      simp only [bpAlerts]
      split_ifs with h1 h2
      · exact iff_of_true (by simp) ⟨bp, rfl, by tauto⟩
      · exact iff_of_true (by simp) ⟨bp, rfl, by tauto⟩
      · refine iff_of_false (by simp) ?_
        rintro ⟨bp', hbp', h⟩
        obtain rfl : bp = bp' := by injection hbp'
        rcases h with h | h | h | h
        · exact h1 (Or.inl h)
        · exact h1 (Or.inr h)
        · exact h2 (Or.inl h)
        · exact h2 (Or.inr h)
  have hhr : ∀ oh, hrAlerts oh ≠ [] ↔
      ∃ hr, oh = some hr ∧ (120 < hr.bpm ∨ hr.bpm < 50) := by
    intro oh
    cases oh with
    | none => simp [hrAlerts]
    | some hr =>
      simp only [hrAlerts]
      split_ifs with h1 h2
      · exact iff_of_true (by simp) ⟨hr, rfl, Or.inl h1⟩
      · exact iff_of_true (by simp) ⟨hr, rfl, Or.inr h2⟩
      · refine iff_of_false (by simp) ?_
        rintro ⟨hr', hhr', h | h⟩ <;> obtain rfl : hr = hr' := by injection hhr'
        · exact h1 h
        · exact h2 h
  have htp : ∀ ot, tempAlerts ot ≠ [] ↔
      ∃ t, ot = some t ∧
        (102 < toFahrenheit t.value t.unit ∨ toFahrenheit t.value t.unit < 95) := by
    intro ot
    cases ot with
    | none => simp [tempAlerts]
    | some t =>
      simp only [tempAlerts]
      split_ifs with h1 h2
      · exact iff_of_true (by simp) ⟨t, rfl, Or.inl h1⟩
      · exact iff_of_true (by simp) ⟨t, rfl, Or.inr h2⟩
      · refine iff_of_false (by simp) ?_
        rintro ⟨t', ht', h | h⟩ <;> obtain rfl : t = t' := by injection ht'
        · exact h1 h
        · exact h2 h
  have ho2 : ∀ oo, o2Alerts oo ≠ [] ↔
      ∃ o, oo = some o ∧ o.percentage < 90 := by
    intro oo
    cases oo with
    | none => simp [o2Alerts]
    | some o =>
      simp only [o2Alerts]
      split_ifs with h1
      · exact iff_of_true (by simp) ⟨o, rfl, h1⟩
      · refine iff_of_false (by simp) ?_
        rintro ⟨o', ho', h⟩
        obtain rfl : o = o' := by injection ho'
        exact h1 h
  rw [← hbp, ← hhr, ← htp, ← ho2]
  simp only [checkCriticalVitals, ne_eq, List.append_eq_nil, not_and_or]
  tauto

/-- Claim C2: for a window with fewer than 3 samples (the empty window
included) `getHealthTrend` returns the `insufficient_data` record: zero
confidence and change, the sample count, and the generic recommendation; the
function is total, so the empty input raises nothing. -/
theorem c2_insufficient_data (type : MetricType) (period : Period)
    (metrics : List HealthMetric) (h : metrics.length < 3) :
    (getHealthTrend type period metrics).trend = .insufficient_data
    ∧ (getHealthTrend type period metrics).confidence = 0
    ∧ (getHealthTrend type period metrics).change = 0
    ∧ (getHealthTrend type period metrics).dataPoints = metrics.length
    ∧ (getHealthTrend type period metrics).recommendations
        = ["Need more data points to analyze trends"] := by
  unfold getHealthTrend
  rw [if_pos h]
  exact ⟨rfl, rfl, rfl, rfl, rfl⟩

/-- Witness for C2 at the empty window. -/
theorem c2_insufficient_data_witness :
    (getHealthTrend .mood .d30 []).trend = .insufficient_data
    ∧ (getHealthTrend .mood .d30 []).confidence = 0 :=
  ⟨(c2_insufficient_data .mood .d30 [] (by decide)).1,
   (c2_insufficient_data .mood .d30 [] (by decide)).2.1⟩

/-- Claim C8 fails on the code: recording the same value twice is not
idempotent.  For a goal with target 10 and stored baseline 0, recording 5
yields progress 50, and recording 5 again resets the progress to 0, because the
first call overwrote the baseline `currentValue`. -/
theorem c8_counterexample :
    (updateGoalStep ⟨"g", .steps, 10, 0, true, 0⟩ 5).progress = 50
    ∧ (updateGoalStep (updateGoalStep ⟨"g", .steps, 10, 0, true, 0⟩ 5) 5).progress
        = 0 := by
  constructor <;>
    · simp only [updateGoalStep, calculateGoalProgress, jsRound]
      norm_num

/-- Claim C8 amended: the progress-update tick is not idempotent; after the
first call overwrites the goal's `currentValue`, a second call with the same
value computes progress against the new baseline, giving 100 when the value
equals the target and 0 otherwise (so the calls agree only when the first call
already produced that degenerate value). -/
theorem c8_second_update (g : HealthGoal) (cv : ℚ) :
    (updateGoalStep (updateGoalStep g cv) cv).progress
      = if cv = g.targetValue then 100 else 0 := by
  simp only [updateGoalStep, calculateGoalProgress]
  by_cases h : cv = g.targetValue
  · rw [h]
    simp
  · rw [if_neg h]
    have hd : ¬(|g.targetValue - cv| = 0) :=
      abs_ne_zero.mpr (sub_ne_zero.mpr fun hc => h hc.symm)
    rw [if_neg hd]
    rw [sub_self, zero_div, zero_mul]
    norm_num [jsRound]

/-- Witness for C8's amended theorem (it quantifies but has no premises; the
instance records both branches at concrete goals). -/
theorem c8_second_update_witness :
    (updateGoalStep (updateGoalStep ⟨"g", .steps, 10, 0, true, 0⟩ 5) 5).progress
      = if (5 : ℚ) = 10 then 100 else 0 :=
  c8_second_update ⟨"g", .steps, 10, 0, true, 0⟩ 5

/-- With distinct question ids, the `find`-then-test step of the flag predicate
holds exactly when some response with that id carries a number passing the
test. -/
lemma numResponseTest_find_iff (l : List HealthResponse) (qid : String)
    (p : ℚ → Bool) (hnd : (l.map HealthResponse.questionId).Nodup) :
    numResponseTest (l.find? fun r => r.questionId == qid) p = true
      ↔ ∃ r ∈ l, r.questionId = qid ∧ ∃ q, r.value = .num q ∧ p q = true := by
  constructor
  · intro h
    cases hf : l.find? fun r => r.questionId == qid with
    | none => rw [hf] at h; simp [numResponseTest] at h
    | some r =>
      rw [hf] at h
      have hmem := List.mem_of_find?_eq_some hf
      have hqid : r.questionId = qid := by
        have := List.find?_some hf
        simpa using this
      obtain ⟨rq, rv⟩ := r
      cases rv with
      | num q => exact ⟨⟨rq, .num q⟩, hmem, hqid, q, rfl, h⟩
      | boolean b => simp [numResponseTest] at h
      | text s => simp [numResponseTest] at h
  · rintro ⟨⟨rq, rv⟩, hmem, hqid, q, hval, hp⟩
    obtain rfl : rv = .num q := hval
    have hsome : (l.find? fun r => r.questionId == qid).isSome :=
      List.find?_isSome.mpr ⟨⟨rq, .num q⟩, hmem, by simp only [beq_iff_eq]; exact hqid⟩
    obtain ⟨r', hf⟩ := Option.isSome_iff_exists.mp hsome
    have hmem' := List.mem_of_find?_eq_some hf
    have hqid' : r'.questionId = qid := by
      have := List.find?_some hf
      simpa using this
    have hrr : r' = ⟨rq, .num q⟩ :=
      List.inj_on_of_nodup_map hnd hmem' hmem (by rw [hqid']; exact hqid.symm)
    rw [hf, hrr]
    simpa [numResponseTest] using hp

/-- Claim C3: with distinct question ids, a submitted check-in is flagged
exactly when the overall score is at most 3, a pain-level response is at
least 8, a mood-rating response is at most 2, or an emergency-severity
response is at least 7; the two spec scenarios (score 2 with pain 5, and
score 7 with pain 9) are both flagged. -/
theorem c3_flag_iff :
    (∀ (responses : List HealthResponse) (overallScore : ℚ),
      (responses.map HealthResponse.questionId).Nodup →
      (shouldFlagCheckIn responses overallScore = true ↔
        overallScore ≤ 3
        ∨ (∃ r ∈ responses, r.questionId = "pain_level"
            ∧ ∃ q, r.value = .num q ∧ 8 ≤ q)
        ∨ (∃ r ∈ responses, r.questionId = "mood_rating"
            ∧ ∃ q, r.value = .num q ∧ q ≤ 2)
        ∨ (∃ r ∈ responses, r.questionId = "emergency_severity"
            ∧ ∃ q, r.value = .num q ∧ 7 ≤ q)))
    ∧ shouldFlagCheckIn [⟨"pain_level", .num 5⟩] 2 = true
    ∧ shouldFlagCheckIn [⟨"pain_level", .num 9⟩] 7 = true := by
  refine ⟨fun responses overallScore hnd => ?_, by decide, by decide⟩
  simp only [shouldFlagCheckIn, Bool.or_eq_true, decide_eq_true_eq,
    numResponseTest_find_iff _ _ _ hnd]
  simp only [or_assoc]

/-- Witness for C3 at a concrete flagged check-in with distinct ids. -/
theorem c3_flag_iff_witness :
    shouldFlagCheckIn [⟨"pain_level", .num 8⟩, ⟨"mood_rating", .num 5⟩] 7 = true :=
  ((c3_flag_iff.1 [⟨"pain_level", .num 8⟩, ⟨"mood_rating", .num 5⟩] 7
    (by decide)).mpr
    (Or.inr (Or.inl ⟨⟨"pain_level", .num 8⟩, by decide, rfl, 8, rfl, le_refl 8⟩)))

/-- Claim C7: an insight is generated from a trend exactly when the rounded
percent change exceeds 20 in absolute value and the confidence exceeds 70 (for
trends satisfying the invariant that `insufficient_data` comes with zero
confidence); the generated insight is positive for improving trends, a concern
for declining ones and neutral otherwise, has high priority above a 30 percent
change and medium otherwise, and is actionable exactly for declining trends.
The two spec scenarios (change 25 and confidence 80 versus change 10 and
confidence 90) produce an insight and nothing, respectively. -/
theorem c7_insight_rule :
    (∀ t : HealthTrend, (t.trend = .insufficient_data → t.confidence = 0) →
      ((generateInsightFromTrend t).isSome ↔ 20 < |t.change| ∧ 70 < t.confidence)
      ∧ ∀ i, generateInsightFromTrend t = some i →
          i.type = (if t.trend = .improving then .positive
                    else if t.trend = .declining then .concern else .neutral)
          ∧ i.priority = (if 30 < |t.change| then .high else .medium)
          ∧ (i.actionable = true ↔ t.trend = .declining))
    ∧ (generateInsightFromTrend
        { metricType := .mood, period := .d7, trend := .improving, change := 25,
          confidence := 80, dataPoints := 7, lastValue := 0, averageValue := 0,
          minValue := 0, maxValue := 0, recommendations := [] }).isSome = true
    ∧ generateInsightFromTrend
        { metricType := .mood, period := .d7, trend := .improving, change := 10,
          confidence := 90, dataPoints := 7, lastValue := 0, averageValue := 0,
          minValue := 0, maxValue := 0, recommendations := [] } = none := by
  refine ⟨fun t ht => ?_, by decide, by decide⟩
  by_cases hins : t.trend = .insufficient_data
  · have hconf : t.confidence = 0 := ht hins
    constructor
    · rw [generateInsightFromTrend, if_pos hins]
      simp [hconf]
    · intro i hi
      rw [generateInsightFromTrend, if_pos hins] at hi
      simp at hi
  · by_cases hfire : 20 < |t.change| ∧ 70 < t.confidence
    · constructor
      · rw [generateInsightFromTrend, if_neg hins, if_pos hfire]
        simpa using hfire
      · intro i hi
        rw [generateInsightFromTrend, if_neg hins, if_pos hfire] at hi
        obtain rfl : _ = i := (Option.some.injEq _ _).mp hi
        refine ⟨rfl, rfl, ?_⟩
        simp
    · constructor
      · rw [generateInsightFromTrend, if_neg hins, if_neg hfire]
        simpa using hfire
      · intro i hi
        rw [generateInsightFromTrend, if_neg hins, if_neg hfire] at hi
        simp at hi

/-- Witness for C7 at a declining trend satisfying the invariant. -/
theorem c7_insight_rule_witness :
    ((generateInsightFromTrend
      { metricType := .mood, period := .d7, trend := .declining, change := -40,
        confidence := 80, dataPoints := 7, lastValue := 0, averageValue := 0,
        minValue := 0, maxValue := 0, recommendations := [] }).isSome
      ↔ 20 < |(-40 : ℤ)| ∧ 70 < (80 : ℤ)) :=
  (c7_insight_rule.1
    { metricType := .mood, period := .d7, trend := .declining, change := -40,
      confidence := 80, dataPoints := 7, lastValue := 0, averageValue := 0,
      minValue := 0, maxValue := 0, recommendations := [] }
    (by simp)).1

/-- A constant series has zero standard deviation. -/
lemma stddevOf_replicate (n : ℕ) (c : ℚ) (hn : n ≠ 0) :
    stddevOf (List.replicate n c) = 0 := by
  unfold stddevOf
  have hmean : (n : ℚ) * c / (n : ℚ) = c := by
    field_simp
  simp only [List.sum_replicate, nsmul_eq_mul, List.length_replicate, hmean,
    List.map_replicate, sub_self]
  simp

/-- The alternating happy/sad scores have standard deviation 2. -/
lemma stddevOf_alternating : stddevOf [5, 1, 5, 1] = 2 := by
  unfold stddevOf
  have h4 : ((([5, 1, 5, 1] : List ℚ).map
      (fun s => (s - ([5, 1, 5, 1] : List ℚ).sum /
        ((([5, 1, 5, 1] : List ℚ).length : ℕ) : ℚ)) ^ 2)).sum /
      ((([5, 1, 5, 1] : List ℚ).length : ℕ) : ℚ) : ℚ) = 4 := by
    norm_num [List.sum_cons, List.map_cons]
  rw [h4]
  rw [show ((4 : ℚ) : ℝ) = 2 ^ 2 by norm_num]
  rw [Real.sqrt_sq (by norm_num)]

/-- Claim C6: the mood-stability score is 1 with fewer than 2 samples in the
window; otherwise it equals the spec formula `1 − min(1, stddev/2)` clamped to
[0, 1] over the mapped mood values; the emotion-to-ordinal table is
happy 5, surprised 4, neutral 3, fearful 2, disgusted 2, sad 1, angry 1; an
all-happy series of length at least 2 scores exactly 1, and the alternating
happy/sad series scores 0, materially below 1. -/
theorem c6_mood_stability :
    (∀ (history : List EmotionEntry) (cutoff : ℚ),
      (recentEmotions history cutoff).length < 2 →
      getMoodStabilityScore history cutoff = 1)
    ∧ (∀ (history : List EmotionEntry) (cutoff : ℚ),
      2 ≤ (recentEmotions history cutoff).length →
      getMoodStabilityScore history cutoff =
        specStabilityFormula (stddevOf
          ((recentEmotions history cutoff).map fun e => moodValue e.emotion)))
    ∧ (moodValue .happy = 5 ∧ moodValue .surprised = 4 ∧ moodValue .neutral = 3
       ∧ moodValue .fearful = 2 ∧ moodValue .disgusted = 2 ∧ moodValue .sad = 1
       ∧ moodValue .angry = 1)
    ∧ (∀ n : ℕ, 2 ≤ n →
        getMoodStabilityScore (List.replicate n ⟨.happy, 1⟩) 0 = 1)
    ∧ getMoodStabilityScore
        [⟨.happy, 1⟩, ⟨.sad, 1⟩, ⟨.happy, 1⟩, ⟨.sad, 1⟩] 0 = 0 := by
  refine ⟨fun history cutoff hlt => ?_, fun history cutoff hge => ?_,
    ⟨rfl, rfl, rfl, rfl, rfl, rfl, rfl⟩, fun n hn => ?_, ?_⟩
  · simp only [getMoodStabilityScore]
    rw [if_pos hlt]
  · simp only [getMoodStabilityScore]
    rw [if_neg (not_lt.mpr hge)]
    set sd := stddevOf
      ((recentEmotions history cutoff).map fun e => moodValue e.emotion) with hsd
    have h0 : 0 ≤ sd := Real.sqrt_nonneg _
    unfold specStabilityFormula
    rcases le_total (sd / 2) 1 with h | h
    · rw [min_eq_right h]
    · have hL : max 0 (min 1 (1 - sd / 2)) = 0 := by
        rw [min_eq_right (by linarith), max_eq_left (by linarith)]
      have hR : max 0 (min 1 (1 - min 1 (sd / 2))) = 0 := by
        rw [min_eq_left h]
        norm_num
      rw [hL, hR]
  · have hrec : recentEmotions (List.replicate n ⟨.happy, 1⟩) 0
        = List.replicate n ⟨.happy, 1⟩ := by
      refine List.filter_eq_self.mpr fun a ha => ?_
      rw [List.eq_of_mem_replicate ha]
      decide
    simp only [getMoodStabilityScore, hrec, List.length_replicate]
    rw [if_neg (by omega)]
    rw [List.map_replicate]
    rw [show moodValue Emotion.happy = 5 from rfl]
    rw [stddevOf_replicate n 5 (by omega)]
    norm_num
  · have hrec : recentEmotions
        [⟨.happy, 1⟩, ⟨.sad, 1⟩, ⟨.happy, 1⟩, ⟨.sad, 1⟩] 0
        = [⟨.happy, 1⟩, ⟨.sad, 1⟩, ⟨.happy, 1⟩, ⟨.sad, 1⟩] := by decide
    simp only [getMoodStabilityScore, hrec]
    rw [if_neg (by decide)]
    rw [show ([⟨.happy, 1⟩, ⟨.sad, 1⟩, ⟨.happy, 1⟩, ⟨.sad, 1⟩] :
        List EmotionEntry).map (fun e => moodValue e.emotion)
        = [5, 1, 5, 1] from rfl]
    rw [stddevOf_alternating]
    norm_num

/-- Witness for C6: the empty history scores 1, and a two-sample all-happy
window scores 1 through the spec formula. -/
theorem c6_mood_stability_witness :
    getMoodStabilityScore [] 0 = 1
    ∧ getMoodStabilityScore (List.replicate 2 ⟨.happy, 1⟩) 0 = 1 :=
  ⟨c6_mood_stability.1 [] 0 (by decide),
   c6_mood_stability.2.2.2.1 2 (by norm_num)⟩

/-- Claim C5: the correlation engine returns `null` whenever fewer than 5
pairs match (timestamps within 24 hours), regardless of the values, and also
whenever the Pearson correlation of the matched values is below 0.3 in
absolute value. -/
theorem c5_correlation_null :
    (∀ (primary secondary : MetricType) (ps ss : List HealthMetric),
      (matchPairs ps ss).length < 5 →
      calculateMetricCorrelation primary secondary ps ss = none)
    ∧ (∀ (primary secondary : MetricType) (ps ss : List HealthMetric),
      |regressionCorrelation ((matchPairs ps ss).map Prod.fst)
        ((matchPairs ps ss).map Prod.snd)| < 0.3 →
      calculateMetricCorrelation primary secondary ps ss = none) := by
  constructor
  · intro primary secondary ps ss h
    simp only [calculateMetricCorrelation]
    split_ifs <;> rfl
  · intro primary secondary ps ss h
    simp only [calculateMetricCorrelation]
    split_ifs <;> rfl

/-- Witness for C5: the empty windows produce no matched pair and a zero
correlation, so both premises are dischargeable. -/
theorem c5_correlation_null_witness :
    calculateMetricCorrelation .mood .sleep [] [] = none
    ∧ calculateMetricCorrelation .pain .mood [] [] = none :=
  ⟨c5_correlation_null.1 .mood .sleep [] [] (by decide),
   c5_correlation_null.2 .pain .mood [] [] (by
     simp only [matchPairs, List.filterMap_nil, List.map_nil]
     simp only [regressionCorrelation, dotSum, List.zipWith_nil_right,
       List.sum_nil, List.length_nil]
     norm_num)⟩

/-- A single append below the 10000 cap is a plain push. -/
lemma saveHealthMetric_small (store : List HealthMetric) (m : HealthMetric)
    (h : store.length + 1 ≤ 10000) : saveHealthMetric store m = store ++ [m] := by
  simp only [saveHealthMetric]
  rw [show (store ++ [m]).length - 10000 = 0 by
    simp only [List.length_append, List.length_cons, List.length_nil]; omega]
  exact List.drop_zero _

/-- Appending a batch below the 10000 cap is plain concatenation. -/
lemma appendAll_small (store ms : List HealthMetric)
    (h : store.length + ms.length ≤ 10000) : appendAll store ms = store ++ ms := by
  induction ms generalizing store with
  | nil => simp [appendAll]
  | cons m rest ih =>
    rw [appendAll, List.foldl_cons]
    rw [saveHealthMetric_small store m
      (by simp only [List.length_cons] at h; omega)]
    rw [show List.foldl saveHealthMetric (store ++ [m]) rest
        = appendAll (store ++ [m]) rest from rfl]
    rw [ih (store ++ [m])
      (by simp only [List.length_append, List.length_cons, List.length_nil] at h ⊢; omega)]
    simp

/-- Claim C9 fails on the sort direction: appending two mood samples with
timestamps 1000 and 2000 and querying the window returns the newer sample
first, not the ascending order the claim asserts. -/
theorem c9_counterexample :
    getHealthMetrics (saveHealthMetric (saveHealthMetric []
        ⟨"1", .mood, .num 1, 1000⟩) ⟨"2", .mood, .num 2, 2000⟩)
      (some .mood) 0 none
      = [⟨"2", .mood, .num 2, 2000⟩, ⟨"1", .mood, .num 1, 1000⟩]
    ∧ getHealthMetrics (saveHealthMetric (saveHealthMetric []
        ⟨"1", .mood, .num 1, 1000⟩) ⟨"2", .mood, .num 2, 2000⟩)
      (some .mood) 0 none
      ≠ [⟨"1", .mood, .num 1, 1000⟩, ⟨"2", .mood, .num 2, 2000⟩] := by
  constructor <;> decide

/-- Claim C9 amended: appending N samples (N ≤ 10000 retention cap) of one
metric type into an empty store and querying that type over a window
containing all their timestamps returns exactly those N samples — as a
permutation — sorted descending (newest first) by timestamp, regardless of
insertion order. -/
theorem c9_roundtrip_descending (ms : List HealthMetric) (t : MetricType)
    (cutoff : ℚ) (hlen : ms.length ≤ 10000)
    (htype : ∀ m ∈ ms, m.type = t)
    (hwin : ∀ m ∈ ms, cutoff < m.timestamp) :
    (getHealthMetrics (appendAll [] ms) (some t) cutoff none).Perm ms
    ∧ List.Sorted newestFirst
        (getHealthMetrics (appendAll [] ms) (some t) cutoff none) := by
  have hstore : appendAll [] ms = ms := by
    simpa using appendAll_small [] ms (by simpa using hlen)
  have hf1 : ms.filter (fun m => cutoff < m.timestamp) = ms :=
    List.filter_eq_self.mpr fun a ha => by simpa using hwin a ha
  have hf2 : ms.filter (fun m => m.type = t) = ms :=
    List.filter_eq_self.mpr fun a ha => by simpa using htype a ha
  simp only [getHealthMetrics, hstore, hf1, hf2]
  exact ⟨List.perm_insertionSort _ _, List.sorted_insertionSort _ _⟩

/-- Witness for C9's amended theorem at the two-sample store of the
counterexample. -/
theorem c9_roundtrip_descending_witness :
    (getHealthMetrics (appendAll []
        [⟨"1", .mood, .num 1, 1000⟩, ⟨"2", .mood, .num 2, 2000⟩])
      (some .mood) 0 none).Perm
      [⟨"1", .mood, .num 1, 1000⟩, ⟨"2", .mood, .num 2, 2000⟩] :=
  (c9_roundtrip_descending
    [⟨"1", .mood, .num 1, 1000⟩, ⟨"2", .mood, .num 2, 2000⟩] .mood 0
    (by decide) (by decide) (by decide)).1

/-! ## Regression on a perfect line (for claim C1) -/

/-- The dot product of a list with itself is the sum of squares. -/
lemma dotSum_self (x : List ℚ) : dotSum x x = (x.map fun u => u * u).sum := by
  rw [dotSum, List.zipWith_same]

/-- Dot product against an affine image. -/
lemma dotSum_map_affine (x : List ℚ) (a b : ℚ) :
    dotSum x (x.map fun t => a * t + b)
      = a * (x.map fun u => u * u).sum + b * x.sum := by
  rw [dotSum, List.zipWith_map_right, List.zipWith_same]
  induction x with
  | nil => simp
  | cons v vs ih =>
    simp only [List.map_cons, List.sum_cons, ih]
    ring

/-- Sum of an affine image. -/
lemma sum_map_affine (x : List ℚ) (a b : ℚ) :
    (x.map fun t => a * t + b).sum = a * x.sum + (x.length : ℚ) * b := by
  induction x with
  | nil => simp
  | cons v vs ih =>
    simp only [List.map_cons, List.sum_cons, List.length_cons, ih]
    push_cast
    ring

/-- Sum of squares of an affine image. -/
lemma sum_map_affine_sq (x : List ℚ) (a b : ℚ) :
    (x.map fun t => (a * t + b) * (a * t + b)).sum
      = a * a * (x.map fun u => u * u).sum + 2 * a * b * x.sum
        + (x.length : ℚ) * (b * b) := by
  induction x with
  | nil => simp
  | cons v vs ih =>
    simp only [List.map_cons, List.sum_cons, List.length_cons, ih]
    push_cast
    ring

/-- The regression numerator over a perfect line collapses to `a · Dq x`. -/
lemma regression_num_affine (x : List ℚ) (a b : ℚ) :
    (x.length : ℚ) * dotSum x (x.map fun t => a * t + b)
      - x.sum * (x.map fun t => a * t + b).sum = a * Dq x := by
  rw [dotSum_map_affine, sum_map_affine, Dq, dotSum_self]
  ring

/-- The y-variance term over a perfect line collapses to `a² · Dq x`. -/
lemma regression_den_affine (x : List ℚ) (a b : ℚ) :
    (x.length : ℚ)
        * dotSum (x.map fun t => a * t + b) (x.map fun t => a * t + b)
      - (x.map fun t => a * t + b).sum ^ 2 = a * a * Dq x := by
  rw [dotSum_self, List.map_map]
  rw [show ((fun u => u * u) ∘ fun t => a * t + b)
      = fun t => (a * t + b) * (a * t + b) from rfl]
  rw [sum_map_affine_sq, sum_map_affine, Dq, dotSum_self]
  ring

/-- Peeling one sample off the x-variance term. -/
lemma sum_map_sub_sq (t : ℚ) (x : List ℚ) :
    (x.map fun u => (t - u) * (t - u)).sum
      = (x.length : ℚ) * (t * t) - 2 * t * x.sum + (x.map fun u => u * u).sum := by
  induction x with
  | nil => simp
  | cons v vs ih =>
    simp only [List.map_cons, List.sum_cons, List.length_cons, ih]
    push_cast
    ring

/-- `Dq` of a cons adds the squared gaps to the head. -/
lemma Dq_cons (t : ℚ) (x : List ℚ) :
    Dq (t :: x) = Dq x + (x.map fun u => (t - u) * (t - u)).sum := by
  rw [sum_map_sub_sq]
  simp only [Dq, dotSum_self, List.map_cons, List.sum_cons, List.length_cons]
  push_cast
  ring

/-- The x-variance term is nonnegative. -/
lemma Dq_nonneg (x : List ℚ) : 0 ≤ Dq x := by
  induction x with
  | nil => simp [Dq, dotSum]
  | cons t vs ih =>
    rw [Dq_cons]
    refine add_nonneg ih (List.sum_nonneg fun v hv => ?_)
    obtain ⟨u, _, rfl⟩ := List.mem_map.mp hv
    exact mul_self_nonneg _

/-- The x-variance term is positive once two sample positions differ. -/
lemma Dq_pos {x : List ℚ} {t1 t2 : ℚ} (h1 : t1 ∈ x) (h2 : t2 ∈ x)
    (hne : t1 ≠ t2) : 0 < Dq x := by
  induction x with
  | nil => simp at h1
  | cons v vs ih =>
    rw [Dq_cons]
    have hnn : ∀ y ∈ vs.map fun u => (v - u) * (v - u), 0 ≤ y := by
      intro y hy
      obtain ⟨u, _, rfl⟩ := List.mem_map.mp hy
      exact mul_self_nonneg _
    rcases List.mem_cons.mp h1 with rfl | h1m
    · rcases List.mem_cons.mp h2 with rfl | h2m
      · exact absurd rfl hne
      · refine add_pos_of_nonneg_of_pos (Dq_nonneg vs) ?_
        have hmem : (t1 - t2) * (t1 - t2) ∈ vs.map fun u => (t1 - u) * (t1 - u) :=
          List.mem_map.mpr ⟨t2, h2m, rfl⟩
        have hle := List.single_le_sum hnn _ hmem
        have hpos : 0 < (t1 - t2) * (t1 - t2) :=
          mul_self_pos.mpr (sub_ne_zero.mpr hne)
        linarith
    · rcases List.mem_cons.mp h2 with rfl | h2m
      · refine add_pos_of_nonneg_of_pos (Dq_nonneg vs) ?_
        have hmem : (t2 - t1) * (t2 - t1) ∈ vs.map fun u => (t2 - u) * (t2 - u) :=
          List.mem_map.mpr ⟨t1, h1m, rfl⟩
        have hle := List.single_le_sum hnn _ hmem
        have hpos : 0 < (t2 - t1) * (t2 - t1) :=
          mul_self_pos.mpr (sub_ne_zero.mpr hne.symm)
        linarith
      · exact add_pos_of_pos_of_nonneg (ih h1m h2m) (List.sum_nonneg hnn)

/-- The OLS slope of a perfect line `y = a·t + b` is `a`. -/
lemma regressionSlope_affine (x : List ℚ) (a b : ℚ) (hD : Dq x ≠ 0) :
    regressionSlope x (x.map fun t => a * t + b) = a := by
  rw [regressionSlope, regression_num_affine]
  have hden : (x.length : ℚ) * dotSum x x - x.sum ^ 2 = Dq x := rfl
  rw [hden, mul_div_assoc, div_self hD, mul_one]

/-- The Pearson correlation of an increasing perfect line is exactly 1. -/
lemma regressionCorrelation_affine (x : List ℚ) (a b : ℚ) (hD : 0 < Dq x)
    (ha : 0 < a) :
    regressionCorrelation x (x.map fun t => a * t + b) = 1 := by
  rw [regressionCorrelation, regression_num_affine]
  have hden : ((x.length : ℚ) * dotSum x x - x.sum ^ 2) *
      ((x.length : ℚ)
          * dotSum (x.map fun t => a * t + b) (x.map fun t => a * t + b)
        - (x.map fun t => a * t + b).sum ^ 2) = (a * Dq x) * (a * Dq x) := by
    rw [regression_den_affine]
    have h1 : (x.length : ℚ) * dotSum x x - x.sum ^ 2 = Dq x := rfl
    rw [h1]
    ring
  rw [hden]
  have hpos : (0 : ℚ) < a * Dq x := mul_pos ha hD
  have hposR : (0 : ℝ) < ((a * Dq x : ℚ) : ℝ) := by exact_mod_cast hpos
  push_cast
  rw [show ((a : ℝ) * ((Dq x : ℚ) : ℝ)) * ((a : ℝ) * ((Dq x : ℚ) : ℝ))
      = ((a : ℝ) * ((Dq x : ℚ) : ℝ)) ^ 2 by ring]
  rw [Real.sqrt_sq (by push_cast at hposR; linarith)]
  exact div_self (by push_cast at hposR; linarith)

/-- A list of at least two pairwise-distinct positions has two distinct
members. -/
lemma exists_two_distinct {x : List ℚ} (hlen : 2 ≤ x.length)
    (hpw : x.Pairwise (· ≠ ·)) : ∃ t1 ∈ x, ∃ t2 ∈ x, t1 ≠ t2 := by
  cases x with
  | nil => simp at hlen
  | cons t1 xs =>
    cases xs with
    | nil => simp at hlen
    | cons t2 rest =>
      refine ⟨t1, List.mem_cons_self _ _, t2,
        List.mem_cons_of_mem _ (List.mem_cons_self _ _), ?_⟩
      exact (List.pairwise_cons.mp hpw).1 t2 (List.mem_cons_self _ _)

/-- The gentle perfect line 1, 2, 3 over millisecond timestamps has slope
1/1000, far below the 0.05 threshold. -/
lemma gentle_slope_small :
    |regressionSlope
      (([⟨"3", .mood, .num 3, 2000⟩, ⟨"2", .mood, .num 2, 1000⟩,
         ⟨"1", .mood, .num 1, 0⟩] : List HealthMetric).map fun m => m.timestamp)
      (([⟨"3", .mood, .num 3, 2000⟩, ⟨"2", .mood, .num 2, 1000⟩,
         ⟨"1", .mood, .num 1, 0⟩] : List HealthMetric).map
        fun m => normalizeValue m.value)| < 0.05 := by
  have hs : regressionSlope
      (([⟨"3", .mood, .num 3, 2000⟩, ⟨"2", .mood, .num 2, 1000⟩,
         ⟨"1", .mood, .num 1, 0⟩] : List HealthMetric).map fun m => m.timestamp)
      (([⟨"3", .mood, .num 3, 2000⟩, ⟨"2", .mood, .num 2, 1000⟩,
         ⟨"1", .mood, .num 1, 0⟩] : List HealthMetric).map
        fun m => normalizeValue m.value) = 1 / 1000 := by
    simp only [List.map_cons, List.map_nil, normalizeValue]
    norm_num [regressionSlope, dotSum]
  rw [hs, abs_of_nonneg (by norm_num)]
  norm_num

/-- The gentle perfect line comes out `stable` from the trend analyzer. -/
lemma gentle_line_stable :
    (getHealthTrend .mood .d30
      [⟨"3", .mood, .num 3, 2000⟩, ⟨"2", .mood, .num 2, 1000⟩,
       ⟨"1", .mood, .num 1, 0⟩]).trend = .stable := by
  simp only [getHealthTrend]
  rw [if_neg (by norm_num)]
  exact if_pos gentle_slope_small

/-- Claim C1 fails on the code: a perfectly linear increasing mood series whose
timestamps are 1000 ms apart with values 1, 2, 3 has OLS slope 1/1000 (value
per millisecond), which is below the 0.05 threshold, so `getHealthTrend`
returns `stable`, not `improving`. -/
theorem c1_counterexample :
    (getHealthTrend .mood .d30
      [⟨"3", .mood, .num 3, 2000⟩, ⟨"2", .mood, .num 2, 1000⟩,
       ⟨"1", .mood, .num 1, 0⟩]).trend = .stable
    ∧ (getHealthTrend .mood .d30
      [⟨"3", .mood, .num 3, 2000⟩, ⟨"2", .mood, .num 2, 1000⟩,
       ⟨"1", .mood, .num 1, 0⟩]).trend ≠ .improving := by
  refine ⟨gentle_line_stable, ?_⟩
  rw [gentle_line_stable]
  simp

/-- Claim C1 amended: for every series of at least 3 samples of a
higher-is-better metric whose normalized values lie on a line
`value = a·timestamp + b` with distinct timestamps and slope `a ≥ 0.05`,
`getHealthTrend` returns `improving` with confidence exactly 95 (the Pearson
correlation of a perfect line is 1, and `min(100, 95) = 95`); and whenever a
window of at least 3 samples yields `stable`, the OLS slope satisfies
`|slope| < 0.05`. -/
theorem c1_linear_trend :
    (∀ (type : MetricType) (period : Period) (ms : List HealthMetric) (a b : ℚ),
      type ∈ [MetricType.mood, .energy, .sleep, .steps] →
      3 ≤ ms.length →
      (ms.map fun m => m.timestamp).Pairwise (· ≠ ·) →
      (∀ m ∈ ms, normalizeValue m.value = a * m.timestamp + b) →
      0.05 ≤ a →
      (getHealthTrend type period ms).trend = .improving
      ∧ (getHealthTrend type period ms).confidence = 95)
    ∧ (∀ (type : MetricType) (period : Period) (ms : List HealthMetric),
      3 ≤ ms.length →
      (getHealthTrend type period ms).trend = .stable →
      |regressionSlope (ms.map fun m => m.timestamp)
        (ms.map fun m => normalizeValue m.value)| < 0.05) := by
  constructor
  · intro type period ms a b htype hlen hts hval ha
    have ha0 : 0 < a := lt_of_lt_of_le (by norm_num) ha
    have hv : (ms.map fun m => normalizeValue m.value)
        = (ms.map fun m => m.timestamp).map fun t => a * t + b := by
      rw [List.map_map]
      exact List.map_congr_left fun m _ => by
        rw [Function.comp_apply]
        exact hval m (by assumption)
    have hD : 0 < Dq (ms.map fun m => m.timestamp) := by
      have hlen2 : 2 ≤ (ms.map fun m => m.timestamp).length := by
        rw [List.length_map]
        omega
      obtain ⟨t1, h1, t2, h2, hne⟩ := exists_two_distinct hlen2 hts
      exact Dq_pos h1 h2 hne
    have hs : regressionSlope (ms.map fun m => m.timestamp)
        (ms.map fun m => normalizeValue m.value) = a := by
      rw [hv]
      exact regressionSlope_affine _ a b (ne_of_gt hD)
    have hc : regressionCorrelation (ms.map fun m => m.timestamp)
        (ms.map fun m => normalizeValue m.value) = 1 := by
      rw [hv]
      exact regressionCorrelation_affine _ a b hD ha0
    have hns : ¬ |regressionSlope (ms.map fun m => m.timestamp)
        (ms.map fun m => normalizeValue m.value)| < 0.05 := by
      rw [hs, abs_of_pos ha0]
      exact not_lt.mpr ha
    constructor
    · simp only [getHealthTrend]
      rw [if_neg (not_lt.mpr hlen)]
      dsimp only
      rw [if_neg hns]
      rw [hs, decide_eq_true ha0]
      rw [isPositiveImprovement, if_pos htype]
      simp
    · simp only [getHealthTrend]
      rw [if_neg (not_lt.mpr hlen)]
      dsimp only
      rw [hc]
      rw [show |(1 : ℝ)| * 100 = 100 by norm_num]
      rw [min_eq_right (by norm_num : (95 : ℝ) ≤ 100)]
      norm_num [jsRoundR]
  · intro type period ms hlen hstable
    by_contra hns
    rw [getHealthTrend] at hstable
    rw [if_neg (not_lt.mpr hlen)] at hstable
    dsimp only at hstable
    rw [if_neg hns] at hstable
    split_ifs at hstable

/-- Witness for C1's amended theorem: a steep perfect line (slope 100 per
millisecond) on three mood samples is `improving` with confidence 95, and the
gentle perfect line of the counterexample input is `stable` with a slope below
the threshold. -/
theorem c1_linear_trend_witness :
    ((getHealthTrend .mood .d30
        [⟨"a", .mood, .num 200, 2⟩, ⟨"b", .mood, .num 100, 1⟩,
         ⟨"c", .mood, .num 0, 0⟩]).trend = .improving
      ∧ (getHealthTrend .mood .d30
        [⟨"a", .mood, .num 200, 2⟩, ⟨"b", .mood, .num 100, 1⟩,
         ⟨"c", .mood, .num 0, 0⟩]).confidence = 95)
    ∧ |regressionSlope
        (([⟨"3", .mood, .num 3, 2000⟩, ⟨"2", .mood, .num 2, 1000⟩,
           ⟨"1", .mood, .num 1, 0⟩] : List HealthMetric).map fun m => m.timestamp)
        (([⟨"3", .mood, .num 3, 2000⟩, ⟨"2", .mood, .num 2, 1000⟩,
           ⟨"1", .mood, .num 1, 0⟩] : List HealthMetric).map
          fun m => normalizeValue m.value)| < 0.05 :=
  ⟨c1_linear_trend.1 .mood .d30
    [⟨"a", .mood, .num 200, 2⟩, ⟨"b", .mood, .num 100, 1⟩, ⟨"c", .mood, .num 0, 0⟩]
    100 0 (by decide) (by decide) (by decide)
    (by
      simp only [List.forall_mem_cons, List.forall_mem_nil, normalizeValue]
      norm_num)
    (by norm_num),
   c1_linear_trend.2 .mood .d30
    [⟨"3", .mood, .num 3, 2000⟩, ⟨"2", .mood, .num 2, 1000⟩, ⟨"1", .mood, .num 1, 0⟩]
    (by decide) gentle_line_stable⟩

end MirrorHealth
